import Mathlib

/-!
Verification of the offline-first sync core of the BUS-Ticket client.

The definitions below are a shallow embedding of the TypeScript sources:

* `src/db/OfflineQueue.ts` — the durable mutation queue (SQLite table
  `offline_queue`): table rows are kept in rowid (insertion) order in a list,
  `INSERT` appends a row carrying a fresh auto-increment id, and SQL
  `ORDER BY c ASC` is embedded as an insertion sort on the column `c`.
* `src/db/TicketRepository.ts` — the cached-entity repository (tables `trips`
  and `tickets`); `INSERT OR REPLACE` removes every row conflicting on a
  unique column, then appends the new row.
* `src/services/SyncService.ts` — the sync orchestrator; the network state
  probe and all remote HTTP calls are supplied by an environment record, and
  every remote call an operation performs is recorded in an explicit trace.

`Date.now()` values are modelled as `Nat` arguments supplied by the caller
(the clock), and the `JSON.stringify`/`JSON.parse` round trip of opaque
payloads is modelled as the identity on the structured value.
-/

namespace BusTickets

/-- Embeds `ActionType` from `OfflineQueue.ts`. -/
inductive ActionType
  | CREATE_BOOKING
  | CANCEL_TICKET
  | UPDATE_PROFILE
  | CHECK_IN
  deriving DecidableEq, Repr

/-- Embeds `EntityType` from `OfflineQueue.ts`. -/
inductive EntityType
  | ticket
  | booking
  | user
  deriving DecidableEq, Repr

/-- An `ActionPayload` (`[key: string]: unknown`): the sync core never
inspects payload contents, so entries are modelled as string key/value
pairs. -/
abbrev ActionPayload := List (String × String)

/-- A row of the `offline_queue` table (`QueuedAction` in `OfflineQueue.ts`). -/
structure QueuedAction where
  id : Nat
  action_type : ActionType
  entity_type : EntityType
  entity_id : Option Nat
  payload : ActionPayload
  created_at : Nat
  retry_count : Nat
  last_error : Option String
  deriving DecidableEq, Repr

/-- The constant `const MAX_RETRIES = 3` in `OfflineQueue.ts`. -/
def MAX_RETRIES : Nat := 3

/-- The `offline_queue` table: rows in rowid order plus the next
auto-increment id. -/
structure QueueDB where
  rows : List QueuedAction
  nextId : Nat
  deriving DecidableEq, Repr

/-- A freshly created `offline_queue` table (SQLite rowids start at 1). -/
def emptyQueue : QueueDB := ⟨[], 1⟩

/-- Embeds `OfflineQueue.enqueue`: `INSERT` with `retry_count = 0` and
`created_at = Date.now()` (passed as `now`); returns `lastInsertRowId`
together with the new table state. -/
def enqueue (actionType : ActionType) (entityType : EntityType)
    (entityId : Option Nat) (payload : ActionPayload) (now : Nat)
    (q : QueueDB) : Nat × QueueDB :=
  let row : QueuedAction :=
    { id := q.nextId, action_type := actionType, entity_type := entityType,
      entity_id := entityId, payload := payload, created_at := now,
      retry_count := 0, last_error := none }
  (q.nextId, ⟨q.rows ++ [row], q.nextId + 1⟩)

/-- The comparison embedding `ORDER BY created_at ASC`. -/
def createdLe (a b : QueuedAction) : Prop := a.created_at ≤ b.created_at

instance : DecidableRel createdLe :=
  fun a b => Nat.decLe a.created_at b.created_at

instance : IsTotal QueuedAction createdLe :=
  ⟨fun a b => Nat.le_total a.created_at b.created_at⟩

instance : IsTrans QueuedAction createdLe :=
  ⟨fun _ _ _ h h2 => Nat.le_trans h h2⟩

/-- Embeds `OfflineQueue.getPendingActions`:
`SELECT * FROM offline_queue WHERE retry_count < 3 ORDER BY created_at ASC`. -/
def getPendingActions (q : QueueDB) : List QueuedAction :=
  List.insertionSort createdLe
    (q.rows.filter (fun a => decide (a.retry_count < MAX_RETRIES)))

/-- Embeds `OfflineQueue.getPendingCount`:
`SELECT COUNT(*) FROM offline_queue WHERE retry_count < 3`. -/
def getPendingCount (q : QueueDB) : Nat :=
  (q.rows.filter (fun a => decide (a.retry_count < MAX_RETRIES))).length

/-- Embeds `OfflineQueue.complete`: `DELETE FROM offline_queue WHERE id = ?`. -/
def completeAction (actionId : Nat) (q : QueueDB) : QueueDB :=
  { q with rows := q.rows.filter (fun a => decide (a.id ≠ actionId)) }

/-- Embeds `OfflineQueue.fail`:
`UPDATE offline_queue SET retry_count = retry_count + 1, last_error = ? WHERE id = ?`. -/
def failAction (actionId : Nat) (error : String) (q : QueueDB) : QueueDB :=
  { q with rows := q.rows.map (fun a =>
      if a.id = actionId then
        { a with retry_count := a.retry_count + 1, last_error := some error }
      else a) }

/-- Embeds `OfflineQueue.getFailedActions`:
`SELECT * FROM offline_queue WHERE retry_count >= 3 ORDER BY created_at ASC`. -/
def getFailedActions (q : QueueDB) : List QueuedAction :=
  List.insertionSort createdLe
    (q.rows.filter (fun a => decide (MAX_RETRIES ≤ a.retry_count)))

/-- Embeds `OfflineQueue.retry`:
`UPDATE offline_queue SET retry_count = 0, last_error = NULL WHERE id = ?`. -/
def retryAction (actionId : Nat) (q : QueueDB) : QueueDB :=
  { q with rows := q.rows.map (fun a =>
      if a.id = actionId then { a with retry_count := 0, last_error := none }
      else a) }

/-- Embeds `OfflineQueue.clearCompleted`:
`DELETE FROM offline_queue WHERE retry_count >= 3`. -/
def clearCompleted (q : QueueDB) : QueueDB :=
  { q with rows := q.rows.filter (fun a => decide (a.retry_count < MAX_RETRIES)) }

/-- Embeds `OfflineQueue.clearAll`: `DELETE FROM offline_queue`. -/
def clearAll (q : QueueDB) : QueueDB :=
  { q with rows := [] }

/-- Embeds `OfflineQueue.getAction`: `SELECT * FROM offline_queue WHERE id = ?`
(first row). -/
def getAction (actionId : Nat) (q : QueueDB) : Option QueuedAction :=
  q.rows.find? (fun a => decide (a.id = actionId))

/-- Membership in the pending list is membership in the table filtered by
`retry_count < 3`. -/
theorem mem_getPendingActions {q : QueueDB} {a : QueuedAction} :
    a ∈ getPendingActions q ↔ a ∈ q.rows ∧ a.retry_count < MAX_RETRIES := by
  simp [getPendingActions, List.mem_insertionSort, List.mem_filter]

/-- Membership in the failed list is membership in the table filtered by
`retry_count >= 3`. -/
theorem mem_getFailedActions {q : QueueDB} {a : QueuedAction} :
    a ∈ getFailedActions q ↔ a ∈ q.rows ∧ MAX_RETRIES ≤ a.retry_count := by
  simp [getFailedActions, List.mem_insertionSort, List.mem_filter]

/-- Lemma: `fail` rewrites the matching row in place: the image of a row whose id
matches stays in the table with `retry_count` incremented and the error
recorded. -/
theorem failAction_mem {q : QueueDB} {a : QueuedAction} {x : Nat}
    (ha : a ∈ q.rows) (hx : a.id = x) (e : String) :
    ({ a with retry_count := a.retry_count + 1, last_error := some e } :
      QueuedAction) ∈ (failAction x e q).rows := by
  have h := List.mem_map_of_mem (fun b =>
    if b.id = x then
      { b with retry_count := b.retry_count + 1, last_error := some e }
    else b) ha
  simpa [failAction, hx] using h

/-- Lemma: `retry` rewrites the matching row in place: the image of a row whose id
matches stays in the table with `retry_count = 0` and `last_error` cleared. -/
theorem retryAction_mem {q : QueueDB} {a : QueuedAction} {x : Nat}
    (ha : a ∈ q.rows) (hx : a.id = x) :
    ({ a with retry_count := 0, last_error := none } : QueuedAction) ∈
      (retryAction x q).rows := by
  have h := List.mem_map_of_mem (fun b =>
    if b.id = x then { b with retry_count := 0, last_error := none } else b) ha
  simpa [retryAction, hx] using h

/-- C1: after `fail()` has hit a queued action `MAX_RETRIES` (3) times its
row has `retry_count ≥ 3`, is excluded from `getPendingActions()` and
included in `getFailedActions()`; `retry()` then resets its `retry_count`
to 0, clears `last_error`, and the row is again in `getPendingActions()`. -/
theorem queue_retry_bound (q : QueueDB) (a : QueuedAction)
    (e1 e2 e3 : String) (ha : a ∈ q.rows) :
    ({ a with retry_count := a.retry_count + 1 + 1 + 1, last_error := some e3 } :
        QueuedAction) ∈
      (failAction a.id e3 (failAction a.id e2 (failAction a.id e1 q))).rows ∧
    MAX_RETRIES ≤ a.retry_count + 1 + 1 + 1 ∧
    ({ a with retry_count := a.retry_count + 1 + 1 + 1, last_error := some e3 } :
        QueuedAction) ∉
      getPendingActions (failAction a.id e3 (failAction a.id e2 (failAction a.id e1 q))) ∧
    ({ a with retry_count := a.retry_count + 1 + 1 + 1, last_error := some e3 } :
        QueuedAction) ∈
      getFailedActions (failAction a.id e3 (failAction a.id e2 (failAction a.id e1 q))) ∧
    ({ a with retry_count := 0, last_error := none } : QueuedAction) ∈
      (retryAction a.id (failAction a.id e3 (failAction a.id e2 (failAction a.id e1 q)))).rows ∧
    ({ a with retry_count := 0, last_error := none } : QueuedAction) ∈
      getPendingActions (retryAction a.id (failAction a.id e3 (failAction a.id e2 (failAction a.id e1 q)))) := by
  have h1 := failAction_mem ha rfl e1
  have h2 := failAction_mem h1 rfl e2
  have h3 := failAction_mem h2 rfl e3
  have h3' : ({ a with retry_count := a.retry_count + 1 + 1 + 1, last_error := some e3 } : QueuedAction) ∈
      (failAction a.id e3 (failAction a.id e2 (failAction a.id e1 q))).rows := h3
  have h4 := retryAction_mem h3 rfl
  have h4' : ({ a with retry_count := 0, last_error := none } : QueuedAction) ∈
      (retryAction a.id (failAction a.id e3 (failAction a.id e2 (failAction a.id e1 q)))).rows := h4
  refine ⟨h3', ?_, ?_, ?_, h4', ?_⟩
  · show 3 ≤ a.retry_count + 1 + 1 + 1
    omega
  · intro hmem
    have h := (mem_getPendingActions.mp hmem).2
    have h' : a.retry_count + 1 + 1 + 1 < 3 := h
    omega
  · refine mem_getFailedActions.mpr ⟨h3', ?_⟩
    show 3 ≤ a.retry_count + 1 + 1 + 1
    omega
  · refine mem_getPendingActions.mpr ⟨h4', ?_⟩
    show (0 : Nat) < 3
    omega

/-- Sample queued action used to instantiate the queue theorems. -/
def sampleAction : QueuedAction :=
  { id := 1, action_type := .CANCEL_TICKET, entity_type := .ticket,
    entity_id := some 42, payload := [("reason", "no show")], created_at := 5,
    retry_count := 0, last_error := none }

/-- Sample single-row queue used to instantiate the queue theorems. -/
def sampleQueue : QueueDB := ⟨[sampleAction], 2⟩

/-- Witness for C1 on a concrete one-action queue. -/
theorem queue_retry_bound_witness :
    ({ sampleAction with retry_count := sampleAction.retry_count + 1 + 1 + 1, last_error := some "e3" } : QueuedAction) ∈
      (failAction sampleAction.id "e3" (failAction sampleAction.id "e2" (failAction sampleAction.id "e1" sampleQueue))).rows ∧
    MAX_RETRIES ≤ sampleAction.retry_count + 1 + 1 + 1 ∧
    ({ sampleAction with retry_count := sampleAction.retry_count + 1 + 1 + 1, last_error := some "e3" } : QueuedAction) ∉
      getPendingActions (failAction sampleAction.id "e3" (failAction sampleAction.id "e2" (failAction sampleAction.id "e1" sampleQueue))) ∧
    ({ sampleAction with retry_count := sampleAction.retry_count + 1 + 1 + 1, last_error := some "e3" } : QueuedAction) ∈
      getFailedActions (failAction sampleAction.id "e3" (failAction sampleAction.id "e2" (failAction sampleAction.id "e1" sampleQueue))) ∧
    ({ sampleAction with retry_count := 0, last_error := none } : QueuedAction) ∈
      (retryAction sampleAction.id (failAction sampleAction.id "e3" (failAction sampleAction.id "e2" (failAction sampleAction.id "e1" sampleQueue)))).rows ∧
    ({ sampleAction with retry_count := 0, last_error := none } : QueuedAction) ∈
      getPendingActions (retryAction sampleAction.id (failAction sampleAction.id "e3" (failAction sampleAction.id "e2" (failAction sampleAction.id "e1" sampleQueue)))) :=
  queue_retry_bound sampleQueue sampleAction "e1" "e2" "e3" (by decide)

/-- C10: `getPendingCount()` agrees with the length of
`getPendingActions()`, and the pending and failed lists partition the
queued actions by `retry_count < 3` versus `retry_count ≥ 3`. -/
theorem queue_pending_failed_partition (q : QueueDB) :
    getPendingCount q = (getPendingActions q).length ∧
    (∀ a, a ∈ getPendingActions q ↔ a ∈ q.rows ∧ a.retry_count < MAX_RETRIES) ∧
    (∀ a, a ∈ getFailedActions q ↔ a ∈ q.rows ∧ MAX_RETRIES ≤ a.retry_count) ∧
    (∀ a, ¬ (a ∈ getPendingActions q ∧ a ∈ getFailedActions q)) := by
  refine ⟨?_, fun a => mem_getPendingActions, fun a => mem_getFailedActions, ?_⟩
  · exact (List.Perm.length_eq (List.perm_insertionSort createdLe _)).symm
  · rintro a ⟨hp, hf⟩
    have h1 := (mem_getPendingActions.mp hp).2
    have h2 := (mem_getFailedActions.mp hf).2
    omega

/-- One call of the enqueue sequence considered in the FIFO property:
the arguments of `enqueue` together with the `Date.now()` value observed by
that call. -/
structure EnqReq where
  action_type : ActionType
  entity_type : EntityType
  entity_id : Option Nat
  payload : ActionPayload
  time : Nat
  deriving DecidableEq, Repr

/-- The row stored by an `enqueue` call that obtained rowid `i`:
`retry_count = 0`, `created_at` = the call time. -/
def enqRow (i : Nat) (r : EnqReq) : QueuedAction :=
  { id := i, action_type := r.action_type, entity_type := r.entity_type,
    entity_id := r.entity_id, payload := r.payload, created_at := r.time,
    retry_count := 0, last_error := none }

/-- Running a sequence of `enqueue` calls against a queue state. -/
def enqueueAll (reqs : List EnqReq) (q : QueueDB) : QueueDB :=
  reqs.foldl (fun acc r =>
    (enqueue r.action_type r.entity_type r.entity_id r.payload r.time acc).2) q

/-- Lemma: `enqueue` only ever appends: the rows after a sequence of calls are the
old rows followed by one `enqRow` per call, ids assigned in call order. -/
theorem enqueueAll_rows (reqs : List EnqReq) (q : QueueDB) :
    (enqueueAll reqs q).rows =
      q.rows ++ (List.enumFrom q.nextId reqs).map (fun p => enqRow p.1 p.2) := by
  induction reqs generalizing q with
  | nil => simp [enqueueAll]
  | cons r rs ih =>
    have hstep : enqueueAll (r :: rs) q =
        enqueueAll rs ⟨q.rows ++ [enqRow q.nextId r], q.nextId + 1⟩ := rfl
    rw [hstep, ih]
    simp [List.enumFrom]

/-- C2: for a sequence of `enqueue` calls whose observed clock values are
non-decreasing (the clock is monotone) and pairwise distinct, the queue
holds exactly one row per call — stored with `retry_count = 0` and
`created_at` equal to that call's clock value — and `getPendingActions()`
returns them in enqueue order. -/
theorem enqueue_fifo (reqs : List EnqReq)
    (hmono : reqs.Pairwise (fun r s => r.time ≤ s.time))
    (hdist : reqs.Pairwise (fun r s => r.time ≠ s.time)) :
    (enqueueAll reqs emptyQueue).rows =
      (List.enumFrom 1 reqs).map (fun p => enqRow p.1 p.2) ∧
    getPendingActions (enqueueAll reqs emptyQueue) =
      (enqueueAll reqs emptyQueue).rows := by
  have hrows : (enqueueAll reqs emptyQueue).rows =
      (List.enumFrom 1 reqs).map (fun p => enqRow p.1 p.2) := by
    simpa [emptyQueue] using enqueueAll_rows reqs emptyQueue
  refine ⟨hrows, ?_⟩
  have hfilter : ((enqueueAll reqs emptyQueue).rows.filter
      (fun a => decide (a.retry_count < MAX_RETRIES))) =
      (enqueueAll reqs emptyQueue).rows := by
    rw [List.filter_eq_self]
    intro a hmem
    rw [hrows] at hmem
    rcases List.mem_map.mp hmem with ⟨p, _, hpe⟩
    rw [← hpe]
    simp [enqRow, MAX_RETRIES]
  have hlt : reqs.Pairwise (fun r s => r.time < s.time) :=
    (hmono.and hdist).imp (fun h => Nat.lt_of_le_of_ne h.1 h.2)
  have hsnd : (List.enumFrom 1 reqs).map Prod.snd = reqs :=
    List.enumFrom_map_snd 1 reqs
  have hpe : ((List.enumFrom 1 reqs).map Prod.snd).Pairwise
      (fun r s => r.time < s.time) := by
    rw [hsnd]; exact hlt
  have hsorted : List.Sorted createdLe (enqueueAll reqs emptyQueue).rows := by
    rw [hrows]
    refine List.pairwise_map.mpr ?_
    exact (List.pairwise_map.mp hpe).imp (fun h => Nat.le_of_lt h)
  simp only [getPendingActions, hfilter]
  exact hsorted.insertionSort_eq

/-- Sample enqueue-call sequence with strictly increasing clock values. -/
def sampleReqs : List EnqReq :=
  [{ action_type := .CREATE_BOOKING, entity_type := .booking,
     entity_id := none, payload := [("trip_id", "3")], time := 10 },
   { action_type := .CHECK_IN, entity_type := .ticket,
     entity_id := some 7, payload := [], time := 20 },
   { action_type := .UPDATE_PROFILE, entity_type := .user,
     entity_id := some 1, payload := [("name", "A")], time := 30 }]

/-- Witness for C2 on a concrete three-call enqueue sequence. -/
theorem enqueue_fifo_witness :
    (enqueueAll sampleReqs emptyQueue).rows =
      (List.enumFrom 1 sampleReqs).map (fun p => enqRow p.1 p.2) ∧
    getPendingActions (enqueueAll sampleReqs emptyQueue) =
      (enqueueAll sampleReqs emptyQueue).rows :=
  enqueue_fifo sampleReqs (by decide) (by decide)

/-! ### Entity repository (`src/db/TicketRepository.ts`)

Wire types come from the app's `types` module. Optional wire fields that the
verified claims never inspect keep their `Option` shape; the JavaScript
falsy-coalescing (`x || null`, `x ?? ''`) on them is embedded pointwise.
`REAL` price amounts are modelled as integers (no claim computes on them),
and the `JSON.stringify` round trip of the `bus_amenities` column is the
identity on the amenity list. `TEXT` column ordering (SQLite BINARY
collation on UTF-8 bytes) is modelled as lexicographic order on the
code-point list, which induces the same order. -/

/-- Wire `Price`. -/
structure Price where
  amount : Int
  currency : String
  deriving DecidableEq, Repr

/-- Wire `Location` (only the fields the repository touches). -/
structure Location where
  id : Nat
  name : String
  city : String
  country : String
  deriving DecidableEq, Repr

/-- Wire `Route`. -/
structure Route where
  id : Nat
  name : String
  origin : Location
  destination : Location
  deriving DecidableEq, Repr

/-- Wire `Bus`. -/
structure Bus where
  id : Nat
  name : String
  plateNumber : String
  capacity : Nat
  amenities : List String
  deriving DecidableEq, Repr

/-- Wire `Trip` (statuses are kept as strings, as the rows store them). -/
structure Trip where
  id : Nat
  route : Route
  departureTime : String
  arrivalTime : String
  bus : Bus
  availableSeats : Nat
  totalSeats : Nat
  price : Price
  status : String
  deriving DecidableEq, Repr

/-- Wire `PassengerInfo`. -/
structure PassengerInfo where
  name : String
  email : String
  phone : String
  deriving DecidableEq, Repr

/-- Wire `Ticket`. -/
structure Ticket where
  id : Nat
  ticketNumber : String
  trip : Trip
  passenger : PassengerInfo
  seat : Option Nat
  price : Price
  status : String
  qrCode : String
  purchasedAt : String
  checkedInAt : Option String
  deriving DecidableEq, Repr

/-- A row of the `trips` table (`CachedTrip`). -/
structure CachedTrip where
  id : Nat
  route_id : Nat
  route_name : String
  origin_city : String
  origin_country : String
  destination_city : String
  destination_country : String
  departure_time : String
  arrival_time : String
  bus_name : String
  bus_plate : String
  bus_capacity : Nat
  bus_amenities : List String
  available_seats : Nat
  total_seats : Nat
  price_amount : Int
  price_currency : String
  status : String
  synced_at : Nat
  deriving DecidableEq, Repr

/-- A row of the `tickets` table (`CachedTicket`). -/
structure CachedTicket where
  id : Nat
  ticket_number : String
  trip_id : Nat
  passenger_name : String
  passenger_email : String
  passenger_phone : Option String
  seat : Option Nat
  price_amount : Int
  price_currency : String
  status : String
  qr_code : Option String
  purchased_at : String
  checked_in_at : Option String
  synced_at : Nat
  deriving DecidableEq, Repr

/-- The repository's two tables. -/
structure Repo where
  trips : List CachedTrip
  tickets : List CachedTicket
  deriving DecidableEq, Repr

/-- An empty repository. -/
def emptyRepo : Repo := ⟨[], []⟩

/-- The `trips` row written by `saveTrip` at clock value `now`. -/
def tripRowOf (now : Nat) (t : Trip) : CachedTrip :=
  { id := t.id, route_id := t.route.id, route_name := t.route.name,
    origin_city := t.route.origin.city, origin_country := t.route.origin.country,
    destination_city := t.route.destination.city,
    destination_country := t.route.destination.country,
    departure_time := t.departureTime, arrival_time := t.arrivalTime,
    bus_name := t.bus.name, bus_plate := t.bus.plateNumber,
    bus_capacity := t.bus.capacity, bus_amenities := t.bus.amenities,
    available_seats := t.availableSeats, total_seats := t.totalSeats,
    price_amount := t.price.amount, price_currency := t.price.currency,
    status := t.status, synced_at := now }

/-- Embeds `TicketRepository.saveTrip`: `INSERT OR REPLACE INTO trips` keyed by the
primary key `id` — any row with the same id is removed, the new row is
inserted. -/
def saveTrip (now : Nat) (t : Trip) (repo : Repo) : Repo :=
  { repo with trips :=
      repo.trips.filter (fun r => decide (r.id ≠ t.id)) ++ [tripRowOf now t] }

/-- Embeds `TicketRepository.saveTrips`: one `saveTrip` per list element, in order. -/
def saveTrips (now : Nat) (ts : List Trip) (repo : Repo) : Repo :=
  ts.foldl (fun acc t => saveTrip now t acc) repo

/-- Embeds `SELECT * FROM trips WHERE id = ?` (first row). -/
def tripRowById (id : Nat) (repo : Repo) : Option CachedTrip :=
  repo.trips.find? (fun r => decide (r.id = id))

/-- Embeds `TicketRepository.mapCachedTripToTrip`. -/
def mapCachedTripToTrip (row : CachedTrip) : Trip :=
  { id := row.id,
    route :=
      { id := row.route_id,
        name := row.route_name,
        origin :=
          { id := 0,
            name := row.origin_city,
            city := row.origin_city,
            country := row.origin_country },
        destination :=
          { id := 0,
            name := row.destination_city,
            city := row.destination_city,
            country := row.destination_country } },
    departureTime := row.departure_time, arrivalTime := row.arrival_time,
    bus :=
      { id := 0,
        name := row.bus_name,
        plateNumber := row.bus_plate,
        capacity := row.bus_capacity,
        amenities := row.bus_amenities },
    availableSeats := row.available_seats, totalSeats := row.total_seats,
    price := { amount := row.price_amount, currency := row.price_currency },
    status := row.status }

/-- Embeds `TicketRepository.getTrip`. -/
def getTrip (id : Nat) (repo : Repo) : Option Trip :=
  (tripRowById id repo).map mapCachedTripToTrip

/-- ASCII lowercasing of a code-point list (`Char.toLower` lowercases
exactly the ASCII range, matching SQLite's default `LIKE` semantics). -/
def lowerChars (l : List Char) : List Char := l.map Char.toLower

/-- SQLite `column LIKE '%pat%'` for a metacharacter-free `pat`:
ASCII-case-insensitive substring match. -/
def likeContains (pat s : String) : Bool :=
  decide (lowerChars pat.data <:+: lowerChars s.data)

/-- SQLite `DATE(x)` on an ISO-8601 datetime string: its `YYYY-MM-DD`
prefix. -/
def sqlDate (s : String) : String := ⟨s.data.take 10⟩

/-- The comparison embedding `ORDER BY departure_time ASC`. -/
def depTimeLe (a b : CachedTrip) : Prop :=
  a.departure_time.data ≤ b.departure_time.data

instance : DecidableRel depTimeLe :=
  fun a b =>
    inferInstanceAs (Decidable (a.departure_time.data ≤ b.departure_time.data))

instance : IsTotal CachedTrip depTimeLe :=
  ⟨fun a b => le_total a.departure_time.data b.departure_time.data⟩

instance : IsTrans CachedTrip depTimeLe :=
  ⟨fun _ _ _ h h2 => le_trans h h2⟩

/-- Embeds `TicketRepository.getTripsByRoute`:
`SELECT * FROM trips WHERE origin_city LIKE ? AND destination_city LIKE ?`
(plus `AND DATE(departure_time) = DATE(?)` when a date is given)
`ORDER BY departure_time ASC`, rows mapped through
`mapCachedTripToTrip`. -/
def getTripsByRoute (originCity destinationCity : String)
    (date : Option String) (repo : Repo) : List Trip :=
  let rows := repo.trips.filter (fun r =>
    likeContains originCity r.origin_city &&
    likeContains destinationCity r.destination_city &&
    match date with
    | none => true
    | some d => decide (sqlDate r.departure_time = sqlDate d))
  (List.insertionSort depTimeLe rows).map mapCachedTripToTrip

/-- The `tickets` row written by `saveTicket` at clock value `now`
(`x || null` stores JavaScript-falsy values as `NULL`). -/
def ticketRowOf (now : Nat) (t : Ticket) : CachedTicket :=
  { id := t.id, ticket_number := t.ticketNumber, trip_id := t.trip.id,
    passenger_name := t.passenger.name, passenger_email := t.passenger.email,
    passenger_phone :=
      if t.passenger.phone = "" then none else some t.passenger.phone,
    seat := t.seat.bind (fun n => if n = 0 then none else some n),
    price_amount := t.price.amount, price_currency := t.price.currency,
    status := t.status,
    qr_code := if t.qrCode = "" then none else some t.qrCode,
    purchased_at := t.purchasedAt,
    checked_in_at := t.checkedInAt.bind (fun s => if s = "" then none else some s),
    synced_at := now }

/-- Embeds `TicketRepository.saveTicket`: first `saveTrip(ticket.trip)`, then
`INSERT OR REPLACE INTO tickets` — the replace removes any row conflicting
on the primary key `id` or on the `UNIQUE ticket_number` column. -/
def saveTicket (now : Nat) (t : Ticket) (repo : Repo) : Repo :=
  let repo1 := saveTrip now t.trip repo
  { repo1 with tickets :=
      repo1.tickets.filter (fun r =>
        decide (r.id ≠ t.id) && decide (r.ticket_number ≠ t.ticketNumber)) ++
      [ticketRowOf now t] }

/-- Embeds `TicketRepository.saveTickets`: one `saveTicket` per list element. -/
def saveTickets (now : Nat) (ts : List Ticket) (repo : Repo) : Repo :=
  ts.foldl (fun acc t => saveTicket now t acc) repo

/-- Embeds `SELECT * FROM tickets WHERE id = ?` (first row). -/
def ticketRowById (id : Nat) (repo : Repo) : Option CachedTicket :=
  repo.tickets.find? (fun r => decide (r.id = id))

/-- Embeds `SELECT * FROM tickets WHERE ticket_number = ?` (first row). -/
def ticketRowByNumber (num : String) (repo : Repo) : Option CachedTicket :=
  repo.tickets.find? (fun r => decide (r.ticket_number = num))

/-- Embeds `TicketRepository.mapCachedTicketToTicket` (`row.qr_code ?? ''`,
`row.x || undefined` coalescing embedded pointwise). -/
def mapCachedTicketToTicket (row : CachedTicket) (trip : Trip) : Ticket :=
  { id := row.id, ticketNumber := row.ticket_number, trip := trip,
    passenger :=
      { name := row.passenger_name,
        email := row.passenger_email,
        phone := row.passenger_phone.getD "" },
    seat := row.seat.bind (fun n => if n = 0 then none else some n),
    price := { amount := row.price_amount, currency := row.price_currency },
    status := row.status,
    qrCode := row.qr_code.getD "",
    purchasedAt := row.purchased_at,
    checkedInAt := row.checked_in_at.bind (fun s => if s = "" then none else some s) }

/-- Embeds `TicketRepository.getTicket`: ticket row by id, then its trip; a ticket
whose trip does not resolve is reported as `null`. -/
def getTicket (id : Nat) (repo : Repo) : Option Ticket :=
  match ticketRowById id repo with
  | none => none
  | some row =>
    match getTrip row.trip_id repo with
    | none => none
    | some trip => some (mapCachedTicketToTicket row trip)

/-- Embeds `TicketRepository.getTicketByNumber`: same shape as `getTicket`, keyed
by the unique ticket number. -/
def getTicketByNumber (num : String) (repo : Repo) : Option Ticket :=
  match ticketRowByNumber num repo with
  | none => none
  | some row =>
    match getTrip row.trip_id repo with
    | none => none
    | some trip => some (mapCachedTicketToTicket row trip)

/-- Embeds `TicketRepository.updateTicketStatus`:
`UPDATE tickets SET status = ?, synced_at = ? WHERE id = ?`. -/
def updateTicketStatus (id : Nat) (status : String) (now : Nat)
    (repo : Repo) : Repo :=
  { repo with tickets := repo.tickets.map (fun r =>
      if r.id = id then { r with status := status, synced_at := now } else r) }

/-- After `saveTrip`, looking the trip up by its id finds the row just
written. -/
theorem tripRowById_saveTrip (now : Nat) (t : Trip) (repo : Repo) :
    tripRowById t.id (saveTrip now t repo) = some (tripRowOf now t) := by
  unfold tripRowById saveTrip
  rw [List.find?_append]
  have hnone : (repo.trips.filter (fun r => decide (r.id ≠ t.id))).find?
      (fun r => decide (r.id = t.id)) = none := by
    rw [List.find?_eq_none]
    intro a ha
    have h := (List.mem_filter.mp ha).2
    simp only [decide_eq_true_eq] at h ⊢
    exact h
  rw [hnone]
  simp [tripRowOf]

/-- After `saveTicket`, looking the ticket up by its id finds the row just
written. -/
theorem ticketRowById_saveTicket (now : Nat) (t : Ticket) (repo : Repo) :
    ticketRowById t.id (saveTicket now t repo) = some (ticketRowOf now t) := by
  unfold ticketRowById saveTicket
  rw [List.find?_append]
  have hnone : (((saveTrip now t.trip repo).tickets).filter (fun r =>
      decide (r.id ≠ t.id) && decide (r.ticket_number ≠ t.ticketNumber))).find?
      (fun r => decide (r.id = t.id)) = none := by
    rw [List.find?_eq_none]
    intro a ha
    have h := (List.mem_filter.mp ha).2
    simp only [Bool.and_eq_true, decide_eq_true_eq] at h
    simp only [decide_eq_true_eq]
    exact h.1
  rw [hnone]
  simp [ticketRowOf]

/-- C5: `saveTicket` upserts the referenced trip before the ticket row, so
afterwards both the trip and the ticket are retrievable; and a stored
ticket row whose `trip_id` has no matching trip row is treated as not
found — `getTicket` and `getTicketByNumber` return `null`, not a ticket
and not an error. -/
theorem saveTicket_trip_invariant (repo : Repo) (t : Ticket) (now : Nat)
    (idq : Nat) (num : String) (row1 row2 : CachedTicket)
    (h1 : ticketRowById idq repo = some row1)
    (h2 : tripRowById row1.trip_id repo = none)
    (h3 : ticketRowByNumber num repo = some row2)
    (h4 : tripRowById row2.trip_id repo = none) :
    (getTrip t.trip.id (saveTicket now t repo)).isSome = true ∧
    (getTicket t.id (saveTicket now t repo)).isSome = true ∧
    getTicket idq repo = none ∧
    getTicketByNumber num repo = none := by
  have htr : tripRowById t.trip.id (saveTicket now t repo) =
      some (tripRowOf now t.trip) := by
    have hbase := tripRowById_saveTrip now t.trip repo
    unfold tripRowById at hbase ⊢
    exact hbase
  refine ⟨?_, ?_, ?_, ?_⟩
  · unfold getTrip
    rw [htr]
    rfl
  · have hrow : getTrip (ticketRowOf now t).trip_id (saveTicket now t repo) =
        some (mapCachedTripToTrip (tripRowOf now t.trip)) := by
      show getTrip t.trip.id (saveTicket now t repo) = _
      unfold getTrip
      rw [htr]
      rfl
    simp [getTicket, ticketRowById_saveTicket, hrow]
  · simp [getTicket, getTrip, h1, h2]
  · simp [getTicketByNumber, getTrip, h3, h4]

/-- Sample cached trip row. -/
def sampleTripRow : CachedTrip :=
  { id := 3, route_id := 1, route_name := "PRG-BRN",
    origin_city := "Praha", origin_country := "CZ",
    destination_city := "Brno", destination_country := "CZ",
    departure_time := "2024-06-01T10:00:00Z",
    arrival_time := "2024-06-01T12:30:00Z",
    bus_name := "Setra", bus_plate := "1AB 2345", bus_capacity := 50,
    bus_amenities := ["wifi"], available_seats := 12, total_seats := 50,
    price_amount := 250, price_currency := "CZK", status := "scheduled",
    synced_at := 100 }

/-- Sample orphan ticket row: its `trip_id` (99) resolves to no trip. -/
def orphanTicketRow : CachedTicket :=
  { id := 7, ticket_number := "TK-7", trip_id := 99,
    passenger_name := "A", passenger_email := "a@example.com",
    passenger_phone := none, seat := some 4, price_amount := 250,
    price_currency := "CZK", status := "paid", qr_code := some "QR",
    purchased_at := "2024-05-01T00:00:00Z", checked_in_at := none,
    synced_at := 100 }

/-- Sample repository containing one trip and one orphan ticket row. -/
def sampleRepo : Repo := ⟨[sampleTripRow], [orphanTicketRow]⟩

/-- Sample wire trip, referencing no cached row. -/
def sampleTrip : Trip :=
  { id := 11,
    route :=
      { id := 2,
        name := "BRN-VIE",
        origin := { id := 0, name := "Brno", city := "Brno", country := "CZ" },
        destination := { id := 0, name := "Wien", city := "Wien", country := "AT" } },
    departureTime := "2024-06-02T08:00:00Z",
    arrivalTime := "2024-06-02T10:00:00Z",
    bus :=
      { id := 0,
        name := "MAN",
        plateNumber := "2CD 6789",
        capacity := 40,
        amenities := [] },
    availableSeats := 5, totalSeats := 40,
    price := { amount := 400, currency := "CZK" }, status := "scheduled" }

/-- Sample wire ticket whose trip is `sampleTrip`. -/
def sampleTicket : Ticket :=
  { id := 21, ticketNumber := "TK-21", trip := sampleTrip,
    passenger := { name := "B", email := "b@example.com", phone := "123" },
    seat := some 9, price := { amount := 400, currency := "CZK" },
    status := "paid", qrCode := "QR21",
    purchasedAt := "2024-05-02T00:00:00Z", checkedInAt := none }

/-- Witness for C5 on a concrete repository with an orphan ticket row. -/
theorem saveTicket_trip_invariant_witness :
    (getTrip sampleTicket.trip.id (saveTicket 200 sampleTicket sampleRepo)).isSome = true ∧
    (getTicket sampleTicket.id (saveTicket 200 sampleTicket sampleRepo)).isSome = true ∧
    getTicket 7 sampleRepo = none ∧
    getTicketByNumber "TK-7" sampleRepo = none :=
  saveTicket_trip_invariant sampleRepo sampleTicket 200 7 "TK-7"
    orphanTicketRow orphanTicketRow (by decide) (by decide) (by decide) (by decide)

/-! ### Sync orchestrator (`src/services/SyncService.ts`)

The service instance is a `World`: its `SyncState`, the in-memory
`isOnline` flag, the auth token, and the local store (queue, repository,
`last_sync` metadata). The platform network probe and the remote HTTP
endpoints are an `Env`; each remote call an operation performs is recorded
in a `RemoteCall` trace. Listener notification carries no data in this
model (object identity of delivered states is modelled separately below). -/

/-- Embeds `SyncStatus` from `SyncService.ts`. -/
inductive SyncStatus
  | idle
  | syncing
  | success
  | error
  | offline
  deriving DecidableEq, Repr

/-- Embeds `SyncState` from `SyncService.ts`. -/
structure SyncState where
  status : SyncStatus
  lastSyncTime : Option Nat
  pendingActions : Nat
  error : Option String
  deriving DecidableEq, Repr

/-- Embeds `SyncOptions` with the defaults destructured at the top of `sync()`. -/
structure SyncOptions where
  forceSync : Bool := false
  syncTickets : Bool := true
  syncTrips : Bool := true
  processQueue : Bool := true
  deriving DecidableEq, Repr

/-- One remote HTTP call, as recorded in the effect trace. -/
inductive RemoteCall
  | action (id : Nat)
  | fetchTickets
  | fetchTrips
  | search (origin destination : String) (date : Option String)
  deriving DecidableEq, Repr

/-- The mutable world owned by the service: sync state, connectivity flag,
auth token, and the local store. -/
structure World where
  state : SyncState
  isOnline : Bool
  authToken : Option String
  queue : QueueDB
  repo : Repo
  lastSyncMeta : Option String
  deriving DecidableEq, Repr

/-- The environment supplying `Network.getNetworkStateAsync` (`none`
models the probe throwing; `some (isConnected, isInternetReachable)`
otherwise) plus the outcome of each remote endpoint. A fetch outcome
`.error m` models a network error or non-ok response with message `m`;
`.ok none` an ok response without the expected payload array; `.ok (some xs)`
an ok response carrying `xs`. -/
structure Env where
  netState : Option (Bool × Bool)
  now : Nat
  bookingCall : QueuedAction → Except String (Option Ticket)
  cancelCall : QueuedAction → Except String Unit
  profileCall : QueuedAction → Except String Unit
  checkInCall : QueuedAction → Except String Unit
  ticketsFetch : Except String (Option (List Ticket))
  tripsFetch : Except String (Option (List Trip))
  searchFetch : String → String → Option String → Except String (Option (List Trip))

/-- Embeds `SyncService.checkNetworkStatus`: sets `isOnline` from the probe
(`false` on probe exception, without a state update); when the probe
reports offline, `updateState({status: 'offline'})`. -/
def checkNetworkStatus (env : Env) (w : World) : Bool × World :=
  match env.netState with
  | some (c, r) =>
    let onl := c && r
    let w' := { w with isOnline := onl }
    if onl then (true, w')
    else (false, { w' with state := { w'.state with status := .offline } })
  | none => (false, { w with isOnline := false })

/-- The outcome of the single remote call `processAction` performs for an
action, as determined by the environment (dispatch on `action_type`). -/
def actionCallResult (env : Env) (a : QueuedAction) : Except String Unit :=
  match a.action_type with
  | .CREATE_BOOKING => (env.bookingCall a).map (fun _ => ())
  | .CANCEL_TICKET => env.cancelCall a
  | .UPDATE_PROFILE => env.profileCall a
  | .CHECK_IN => env.checkInCall a

/-- Embeds `SyncService.processAction` plus the four `process*` handlers: dispatch
on the action type, one remote call, and on success the matching local
cache update (`action.entity_id!` is embedded as `getD 0`). -/
def processAction (env : Env) (a : QueuedAction) (repo : Repo) :
    Except String Repo :=
  match a.action_type with
  | .CREATE_BOOKING =>
    match env.bookingCall a with
    | .error m => .error m
    | .ok none => .ok repo
    | .ok (some t) => .ok (saveTicket env.now t repo)
  | .CANCEL_TICKET =>
    match env.cancelCall a with
    | .error m => .error m
    | .ok _ => .ok (updateTicketStatus (a.entity_id.getD 0) "cancelled" env.now repo)
  | .UPDATE_PROFILE =>
    match env.profileCall a with
    | .error m => .error m
    | .ok _ => .ok repo
  | .CHECK_IN =>
    match env.checkInCall a with
    | .error m => .error m
    | .ok _ => .ok (updateTicketStatus (a.entity_id.getD 0) "checked_in" env.now repo)

/-- The `for (const action of pendingActions)` loop body of
`processOfflineQueue`: per action, one `processAction` attempt; on success
`complete(action.id)`, on failure `fail(action.id, message)`; the loop
always moves on to the next action of the snapshot. -/
def drainLoop (env : Env) :
    List QueuedAction → QueueDB → Repo → QueueDB × Repo × List RemoteCall
  | [], q, repo => (q, repo, [])
  | a :: rest, q, repo =>
    match processAction env a repo with
    | .ok repo' =>
      let r := drainLoop env rest (completeAction a.id q) repo'
      (r.1, r.2.1, .action a.id :: r.2.2)
    | .error msg =>
      let r := drainLoop env rest (failAction a.id msg q) repo
      (r.1, r.2.1, .action a.id :: r.2.2)

/-- Embeds `SyncService.processOfflineQueue`: snapshot the pending actions, return
early when there are none, otherwise drain the snapshot and refresh
`state.pendingActions` in place. -/
def processOfflineQueue (env : Env) (w : World) : World × List RemoteCall :=
  let pending := getPendingActions w.queue
  if pending.length = 0 then (w, [])
  else
    let r := drainLoop env pending w.queue w.repo
    ({ w with
        queue := r.1,
        repo := r.2.1,
        state := { w.state with pendingActions := getPendingCount r.1 } },
     r.2.2)

/-- Embeds `SyncService.syncTickets`: bail out without a token; fetch the ticket
list; non-ok or thrown → the error propagates; a tickets array in the
response is upserted via `saveTickets`. -/
def syncTicketsStep (env : Env) (w : World) :
    Except String World × List RemoteCall :=
  if w.authToken.isNone then (.ok w, [])
  else
    match env.ticketsFetch with
    | .error m => (.error m, [.fetchTickets])
    | .ok none => (.ok w, [.fetchTickets])
    | .ok (some ts) => (.ok { w with repo := saveTickets env.now ts w.repo }, [.fetchTickets])

/-- Embeds `SyncService.syncPopularTrips`: best-effort — failures are logged and
swallowed; a trips array in the response is upserted via `saveTrips`. -/
def syncPopularTripsStep (env : Env) (w : World) : World × List RemoteCall :=
  match env.tripsFetch with
  | .error _ => (w, [.fetchTrips])
  | .ok none => (w, [.fetchTrips])
  | .ok (some ts) => ({ w with repo := saveTrips env.now ts w.repo }, [.fetchTrips])

/-- Embeds `SyncService.sync`: connectivity check, single-flight guard, then
queue drain, ticket sync (when authed), best-effort trip snapshot, and the
success bookkeeping; a thrown ticket-sync error is caught and recorded. -/
def sync (env : Env) (opts : SyncOptions) (w : World) :
    Bool × World × List RemoteCall :=
  let cn := checkNetworkStatus env w
  let netOk := cn.1
  let w1 := cn.2
  if netOk = false then
    (false,
     { w1 with state := { w1.state with status := .offline, error := some "No network connection" } },
     [])
  else if w1.state.status = .syncing ∧ opts.forceSync = false then
    (false, w1, [])
  else
    let w2 := { w1 with state := { w1.state with status := .syncing, error := none } }
    let pq := if opts.processQueue then processOfflineQueue env w2 else (w2, [])
    let w3 := pq.1
    let tickRes :=
      if opts.syncTickets ∧ w3.authToken.isSome then syncTicketsStep env w3
      else (Except.ok w3, [])
    match tickRes.1 with
    | .error msg =>
      (false,
       { w3 with state := { w3.state with status := .error, error := some msg } },
       pq.2 ++ tickRes.2)
    | .ok w4 =>
      let tr := if opts.syncTrips then syncPopularTripsStep env w4 else (w4, [])
      let w5 := tr.1
      let pend := getPendingCount w5.queue
      let st5 := { w5.state with status := .success, lastSyncTime := some env.now, pendingActions := pend }
      (true,
       { w5 with state := st5, lastSyncMeta := some (toString env.now) },
       pq.2 ++ tickRes.2 ++ tr.2)

/-- Embeds `SyncService.searchTrips`: when online, one search request — an ok
response carrying trips is cached via `saveTrips` and returned; any other
outcome falls back to the cache; when offline, no request is made and the
cache is served via `getTripsByRoute`. -/
def searchTrips (env : Env) (origin destination : String)
    (date : Option String) (w : World) : List Trip × World × List RemoteCall :=
  if w.isOnline then
    match env.searchFetch origin destination date with
    | .ok (some ts) =>
      (ts, { w with repo := saveTrips env.now ts w.repo },
       [.search origin destination date])
    | .ok none =>
      (getTripsByRoute origin destination date w.repo, w,
       [.search origin destination date])
    | .error _ =>
      (getTripsByRoute origin destination date w.repo, w,
       [.search origin destination date])
  else
    (getTripsByRoute origin destination date w.repo, w, [])

/-- Embeds `SyncService.queueAction`: enqueue, refresh the in-memory pending
count, notify listeners, and return the action id. The `this.sync(...)`
trigger fired when online is not awaited — it runs only after this call
has returned — so it is not part of this operation's effects. -/
def queueAction (actionType : ActionType) (entityType : EntityType)
    (entityId : Option Nat) (payload : ActionPayload) (now : Nat)
    (w : World) : Nat × World :=
  let r := enqueue actionType entityType entityId payload now w.queue
  (r.1,
   { w with
      queue := r.2,
      state := { w.state with pendingActions := getPendingCount r.2 } })

/-- Embeds `useOffline.queueCancelTicket` (`src/hooks/useOffline.ts`): optimistic
`updateTicketStatus(.., 'cancelled')` first, then
`queueAction('CANCEL_TICKET', 'ticket', ticketId, { reason })`. -/
def queueCancelTicket (ticketId : Nat) (reason : Option String) (now : Nat)
    (w : World) : Nat × World :=
  let w1 := { w with repo := updateTicketStatus ticketId "cancelled" now w.repo }
  queueAction .CANCEL_TICKET .ticket (some ticketId)
    (match reason with
     | some rs => [("reason", rs)]
     | none => []) now w1

/-- Embeds `useOffline.queueCheckIn`: optimistic
`updateTicketStatus(.., 'checked_in')` first, then
`queueAction('CHECK_IN', 'ticket', ticketId, {})`. -/
def queueCheckIn (ticketId : Nat) (now : Nat) (w : World) : Nat × World :=
  let w1 := { w with repo := updateTicketStatus ticketId "checked_in" now w.repo }
  queueAction .CHECK_IN .ticket (some ticketId) [] now w1

/-- Lemma: `checkNetworkStatus` only touches `isOnline` and `state.status`: the
queue, the repository, the metadata, the token, and the other `SyncState`
fields are untouched. -/
theorem checkNetworkStatus_frame (env : Env) (w : World) :
    (checkNetworkStatus env w).2.state.lastSyncTime = w.state.lastSyncTime ∧
    (checkNetworkStatus env w).2.state.pendingActions = w.state.pendingActions ∧
    (checkNetworkStatus env w).2.queue = w.queue ∧
    (checkNetworkStatus env w).2.repo = w.repo ∧
    (checkNetworkStatus env w).2.lastSyncMeta = w.lastSyncMeta ∧
    (checkNetworkStatus env w).2.authToken = w.authToken := by
  rcases henv : env.netState with - | ⟨c, r⟩
  · simp [checkNetworkStatus, henv]
  · by_cases h : (c && r) = true <;> simp [checkNetworkStatus, henv, h]

/-- C4: when the connectivity check fails, `sync` sets the state to
`offline` with the error message and returns `false` immediately: no
remote call is made, and the queue, the repository, the metadata,
`lastSyncTime` and `pendingActions` are unchanged. -/
theorem sync_offline_guard (env : Env) (opts : SyncOptions) (w : World)
    (h : (checkNetworkStatus env w).1 = false) :
    (sync env opts w).1 = false ∧
    (sync env opts w).2.2 = [] ∧
    (sync env opts w).2.1.state.status = .offline ∧
    (sync env opts w).2.1.state.error = some "No network connection" ∧
    (sync env opts w).2.1.queue = w.queue ∧
    (sync env opts w).2.1.repo = w.repo ∧
    (sync env opts w).2.1.lastSyncMeta = w.lastSyncMeta ∧
    (sync env opts w).2.1.state.lastSyncTime = w.state.lastSyncTime ∧
    (sync env opts w).2.1.state.pendingActions = w.state.pendingActions := by
  obtain ⟨hlt, hpa, hq, hr, hm, -⟩ := checkNetworkStatus_frame env w
  refine ⟨?_, ?_, ?_, ?_, ?_, ?_, ?_, ?_, ?_⟩ <;>
    simp [sync, h, hq, hr, hm, hlt, hpa]

/-- Environment whose connectivity probe reports no connection. -/
def offlineEnv : Env :=
  { netState := some (false, true), now := 777,
    bookingCall := fun _ => .error "offline",
    cancelCall := fun _ => .error "offline",
    profileCall := fun _ => .error "offline",
    checkInCall := fun _ => .error "offline",
    ticketsFetch := .error "offline", tripsFetch := .error "offline",
    searchFetch := fun _ _ _ => .error "offline" }

/-- Sample world with a populated store, used to instantiate the sync
theorems. -/
def sampleWorld : World :=
  { state := { status := .idle, lastSyncTime := some 50, pendingActions := 1, error := none },
    isOnline := true, authToken := some "tok", queue := sampleQueue,
    repo := sampleRepo, lastSyncMeta := some "50" }

/-- Witness for C4 on a concrete offline environment. -/
theorem sync_offline_guard_witness :
    (sync offlineEnv {} sampleWorld).1 = false ∧
    (sync offlineEnv {} sampleWorld).2.2 = [] ∧
    (sync offlineEnv {} sampleWorld).2.1.state.status = .offline ∧
    (sync offlineEnv {} sampleWorld).2.1.state.error = some "No network connection" ∧
    (sync offlineEnv {} sampleWorld).2.1.queue = sampleWorld.queue ∧
    (sync offlineEnv {} sampleWorld).2.1.repo = sampleWorld.repo ∧
    (sync offlineEnv {} sampleWorld).2.1.lastSyncMeta = sampleWorld.lastSyncMeta ∧
    (sync offlineEnv {} sampleWorld).2.1.state.lastSyncTime = sampleWorld.state.lastSyncTime ∧
    (sync offlineEnv {} sampleWorld).2.1.state.pendingActions = sampleWorld.state.pendingActions :=
  sync_offline_guard offlineEnv {} sampleWorld (by decide)

/-- World whose sync state says a sync is already in flight. -/
def syncingWorld : World :=
  { state := { status := .syncing, lastSyncTime := none, pendingActions := 0, error := none },
    isOnline := true, authToken := none, queue := emptyQueue, repo := emptyRepo,
    lastSyncMeta := none }

/-- Counterexample to C3 as stated: with a sync already in flight and
`forceSync` false, a `sync()` call during which the connectivity check
fails does return `false`, but it is not free of side effects — the
`SyncState` changes (status moves from `syncing` to `offline` and an error
message is recorded), because the connectivity check runs before the
single-flight guard. -/
theorem sync_single_flight_counterexample :
    syncingWorld.state.status = .syncing ∧
    SyncOptions.forceSync {} = false ∧
    (sync offlineEnv {} syncingWorld).1 = false ∧
    (sync offlineEnv {} syncingWorld).2.1.state ≠ syncingWorld.state := by
  decide

/-- Environment whose connectivity probe reports a reachable connection
and whose remote endpoints all succeed without payloads. -/
def onlineEnv : Env :=
  { netState := some (true, true), now := 900,
    bookingCall := fun _ => .ok none,
    cancelCall := fun _ => .ok (),
    profileCall := fun _ => .ok (),
    checkInCall := fun _ => .ok (),
    ticketsFetch := .ok none, tripsFetch := .ok none,
    searchFetch := fun _ _ _ => .ok none }

/-- C3 (amended): provided the connectivity check reports online, a
`sync()` call made while the state is already `syncing` with `forceSync`
false returns `false` with no side effects — no queue draining, no remote
calls, and the world unchanged except for the refreshed in-memory
`isOnline` flag (in particular the whole `SyncState` is unchanged). -/
theorem sync_single_flight (env : Env) (opts : SyncOptions) (w : World)
    (c r : Bool) (hn : env.netState = some (c, r)) (hcr : (c && r) = true)
    (hs : w.state.status = .syncing) (hf : opts.forceSync = false) :
    sync env opts w = (false, { w with isOnline := true }, []) := by
  have hck : checkNetworkStatus env w = (true, { w with isOnline := true }) := by
    simp [checkNetworkStatus, hn, hcr]
  simp [sync, hck, hs, hf]

/-- Witness for the amended C3 on a concrete online environment. -/
theorem sync_single_flight_witness :
    sync onlineEnv {} syncingWorld = (false, { syncingWorld with isOnline := true }, []) :=
  sync_single_flight onlineEnv {} syncingWorld true true rfl rfl rfl rfl

/-- Filtering away only rows the search predicate rejects leaves `find?`
unchanged. -/
theorem find?_filter_of_imp {α : Type} {p q : α → Bool} {l : List α}
    (h : ∀ a, p a = true → q a = true) :
    (l.filter q).find? p = l.find? p := by
  induction l with
  | nil => rfl
  | cons a l ih =>
    by_cases hq : q a = true
    · rw [List.filter_cons_of_pos hq]
      by_cases hp : p a = true
      · rw [List.find?_cons_of_pos _ hp, List.find?_cons_of_pos _ hp]
      · rw [List.find?_cons_of_neg _ hp, List.find?_cons_of_neg _ hp]
        exact ih
    · have hp : ¬ p a = true := fun hc => hq (h a hc)
      rw [List.filter_cons_of_neg hq, List.find?_cons_of_neg _ hp]
      exact ih

/-- The row updater of `fail` preserves row ids, so the id search
predicate is unchanged under it. -/
theorem failUpdater_comp (x y : Nat) (e : String) :
    ((fun a : QueuedAction => decide (a.id = x)) ∘
      (fun a : QueuedAction => if a.id = y then
        { a with retry_count := a.retry_count + 1, last_error := some e }
      else a)) =
    (fun a : QueuedAction => decide (a.id = x)) := by
  funext a
  by_cases hy : a.id = y <;> simp [Function.comp, hy]

/-- Lemma: `complete` on one id leaves lookups of a different id unchanged. -/
theorem getAction_completeAction_ne {x y : Nat} (q : QueueDB) (h : y ≠ x) :
    getAction x (completeAction y q) = getAction x q := by
  simp only [getAction, completeAction]
  exact find?_filter_of_imp (fun a ha => by
    simp only [decide_eq_true_eq] at ha ⊢
    omega)

/-- Lemma: `fail` on one id leaves lookups of a different id unchanged. -/
theorem getAction_failAction_ne {x y : Nat} (e : String) (q : QueueDB)
    (h : y ≠ x) :
    getAction x (failAction y e q) = getAction x q := by
  simp only [getAction, failAction]
  rw [List.find?_map, failUpdater_comp x y e]
  cases hf : q.rows.find? (fun a => decide (a.id = x)) with
  | none => rfl
  | some a0 =>
    have hid : a0.id = x := by simpa using List.find?_some hf
    simp [hid, Ne.symm h]

/-- Lemma: `fail` on the looked-up id rewrites the row found: `retry_count`
incremented by one, `last_error` set. -/
theorem getAction_failAction_hit {x : Nat} (e : String) (q : QueueDB)
    {a0 : QueuedAction} (hf : getAction x q = some a0) :
    getAction x (failAction x e q) =
      some { a0 with retry_count := a0.retry_count + 1, last_error := some e } := by
  have hid : a0.id = x := by simpa using List.find?_some hf
  simp only [getAction, failAction] at hf ⊢
  rw [List.find?_map, failUpdater_comp x x e, hf]
  simp [hid]

/-- In a table with distinct ids, looking up a member row's id finds that
row. -/
theorem find?_id_of_mem_nodup {l : List QueuedAction} {a : QueuedAction}
    (hnodup : (l.map (fun b => b.id)).Nodup) (ha : a ∈ l) :
    l.find? (fun b => decide (b.id = a.id)) = some a := by
  induction l with
  | nil => cases ha
  | cons b l ih =>
    obtain ⟨hhead, htail⟩ :
        (∀ x ∈ l, ¬ x.id = b.id) ∧ (l.map (fun c => c.id)).Nodup := by
      simpa using hnodup
    rcases List.mem_cons.mp ha with rfl | hmem
    · exact List.find?_cons_of_pos _ (by simp)
    · have hbne : b.id ≠ a.id := fun he => hhead a hmem he.symm
      rw [List.find?_cons_of_neg _ (by simpa using hbne)]
      exact ih htail hmem

/-- Lemma: `getAction` version of `find?_id_of_mem_nodup`. -/
theorem getAction_of_mem_nodup {q : QueueDB} {a : QueuedAction}
    (hnodup : (q.rows.map (fun b => b.id)).Nodup) (ha : a ∈ q.rows) :
    getAction a.id q = some a :=
  find?_id_of_mem_nodup hnodup ha

/-- Lemma: `processAction` fails with a message exactly when the single remote
call it performs does. -/
theorem processAction_error_iff (env : Env) (a : QueuedAction) (repo : Repo)
    (msg : String) :
    processAction env a repo = .error msg ↔
      actionCallResult env a = .error msg := by
  unfold processAction actionCallResult
  cases a.action_type with
  | CREATE_BOOKING =>
    cases hb : env.bookingCall a with
    | error m => simp [hb, Except.map]
    | ok v => cases v <;> simp [hb, Except.map]
  | CANCEL_TICKET => cases hb : env.cancelCall a <;> simp [hb]
  | UPDATE_PROFILE => cases hb : env.profileCall a <;> simp [hb]
  | CHECK_IN => cases hb : env.checkInCall a <;> simp [hb]

/-- The drain loop attempts one remote call per action of its snapshot, in
snapshot order, regardless of per-action successes and failures. -/
theorem drainLoop_trace (env : Env) (todo : List QueuedAction)
    (q : QueueDB) (repo : Repo) :
    (drainLoop env todo q repo).2.2 =
      todo.map (fun a => RemoteCall.action a.id) := by
  induction todo generalizing q repo with
  | nil => rfl
  | cons a rest ih =>
    cases hpa : processAction env a repo with
    | ok repo' => simp [drainLoop, hpa, ih]
    | error msg => simp [drainLoop, hpa, ih]

/-- The drain loop leaves rows whose id is not in its snapshot untouched. -/
theorem drainLoop_getAction_notin (env : Env) {x : Nat}
    (todo : List QueuedAction) :
    ∀ (q : QueueDB) (repo : Repo), (∀ b ∈ todo, b.id ≠ x) →
      getAction x (drainLoop env todo q repo).1 = getAction x q := by
  induction todo with
  | nil => intro q repo _; rfl
  | cons b rest ih =>
    intro q repo h
    have hb : b.id ≠ x := h b (List.mem_cons_self b rest)
    have hrest : ∀ c ∈ rest, c.id ≠ x := fun c hc => h c (List.mem_cons_of_mem _ hc)
    cases hpa : processAction env b repo with
    | ok repo' =>
      simp only [drainLoop, hpa]
      rw [ih _ _ hrest, getAction_completeAction_ne _ hb]
    | error m2 =>
      simp only [drainLoop, hpa]
      rw [ih _ _ hrest, getAction_failAction_ne m2 _ hb]

/-- If an action of the snapshot has a failing handler, then after the
drain loop its row is still queued — not deleted — with `retry_count`
incremented by exactly one and the failure message in `last_error`. -/
theorem drainLoop_fail_update (env : Env) {a : QueuedAction} {msg : String}
    (todo : List QueuedAction) :
    ∀ (q : QueueDB) (repo : Repo),
      (todo.map (fun b => b.id)).Nodup → a ∈ todo →
      getAction a.id q = some a →
      actionCallResult env a = .error msg →
      getAction a.id (drainLoop env todo q repo).1 =
        some { a with retry_count := a.retry_count + 1, last_error := some msg } := by
  induction todo with
  | nil => intro q repo _ ha _ _; cases ha
  | cons b rest ih =>
    intro q repo hnodup hmem hq hfail
    obtain ⟨hhead, htail⟩ :
        (∀ x ∈ rest, ¬ x.id = b.id) ∧ (rest.map (fun c => c.id)).Nodup := by
      simpa using hnodup
    rcases List.mem_cons.mp hmem with rfl | hmem'
    · have herr : processAction env a repo = .error msg :=
        (processAction_error_iff env a repo msg).mpr hfail
      simp only [drainLoop, herr]
      have hnot : ∀ c ∈ rest, c.id ≠ a.id := fun c hc => hhead c hc
      rw [drainLoop_getAction_notin env rest _ _ hnot]
      exact getAction_failAction_hit msg q hq
    · have hbne : b.id ≠ a.id := fun he => hhead a hmem' he.symm
      cases hpa : processAction env b repo with
      | ok repo' =>
        simp only [drainLoop, hpa]
        refine ih _ _ htail hmem' ?_ hfail
        rw [getAction_completeAction_ne _ hbne]
        exact hq
      | error m2 =>
        simp only [drainLoop, hpa]
        refine ih _ _ htail hmem' ?_ hfail
        rw [getAction_failAction_ne m2 _ hbne]
        exact hq

/-- C6: in a drain pass over a queue with distinct row ids, every pending
action is attempted — the remote-call trace is exactly one call per
pending action, in FIFO order, so one action's failure never prevents
later actions from being attempted — and an action whose handler fails
stays queued with `retry_count` incremented by exactly one and the failure
message recorded in `last_error`. -/
theorem queue_drain_fail_continues (env : Env) (w : World) (a : QueuedAction)
    (msg : String) (hnodup : (w.queue.rows.map (fun b => b.id)).Nodup)
    (ha : a ∈ getPendingActions w.queue)
    (hfail : actionCallResult env a = .error msg) :
    (processOfflineQueue env w).2 =
      (getPendingActions w.queue).map (fun b => RemoteCall.action b.id) ∧
    getAction a.id (processOfflineQueue env w).1.queue =
      some { a with retry_count := a.retry_count + 1, last_error := some msg } := by
  have hne : ¬ (getPendingActions w.queue).length = 0 := by
    intro h0
    rw [List.length_eq_zero] at h0
    rw [h0] at ha
    cases ha
  have h1 : ((w.queue.rows.filter
      (fun b => decide (b.retry_count < MAX_RETRIES))).map (fun b => b.id)).Nodup :=
    List.Nodup.sublist (List.Sublist.map _ (List.filter_sublist _)) hnodup
  have hperm := List.perm_insertionSort createdLe
    (w.queue.rows.filter (fun b => decide (b.retry_count < MAX_RETRIES)))
  have hpnodup : ((getPendingActions w.queue).map (fun b => b.id)).Nodup :=
    ((hperm.map (fun b => b.id)).nodup_iff).mpr h1
  have hq0 : getAction a.id w.queue = some a :=
    getAction_of_mem_nodup hnodup (mem_getPendingActions.mp ha).1
  constructor
  · simp only [processOfflineQueue]
    rw [if_neg hne]
    exact drainLoop_trace env _ _ _
  · simp only [processOfflineQueue]
    rw [if_neg hne]
    exact drainLoop_fail_update env _ w.queue w.repo hpnodup ha hq0 hfail

/-- Witness for C6: one pending cancel action whose handler fails. -/
theorem queue_drain_fail_continues_witness :
    (processOfflineQueue offlineEnv sampleWorld).2 =
      (getPendingActions sampleWorld.queue).map (fun b => RemoteCall.action b.id) ∧
    getAction sampleAction.id (processOfflineQueue offlineEnv sampleWorld).1.queue =
      some { sampleAction with retry_count := sampleAction.retry_count + 1, last_error := some "offline" } :=
  queue_drain_fail_continues offlineEnv sampleWorld sampleAction "offline"
    (by decide) (by decide) rfl

/-- C8: when the network monitor reports offline, `searchTrips` makes no
remote call and returns the cached `getTripsByRoute` results unchanged,
whose trips all match both city names by ASCII-case-insensitive substring
and are ordered by departure time ascending. -/
theorem searchTrips_offline_cache (env : Env) (w : World)
    (origin destination : String) (date : Option String)
    (h : w.isOnline = false) :
    searchTrips env origin destination date w =
      (getTripsByRoute origin destination date w.repo, w, []) ∧
    (∀ t ∈ getTripsByRoute origin destination date w.repo,
      likeContains origin t.route.origin.city = true ∧
      likeContains destination t.route.destination.city = true) ∧
    List.Pairwise (fun t1 t2 : Trip => t1.departureTime.data ≤ t2.departureTime.data)
      (getTripsByRoute origin destination date w.repo) := by
  refine ⟨by simp [searchTrips, h], ?_, ?_⟩
  · intro t ht
    simp only [getTripsByRoute] at ht
    rcases List.mem_map.mp ht with ⟨row, hrow, hrowe⟩
    have hmem : row ∈ w.repo.trips.filter (fun r =>
        likeContains origin r.origin_city &&
        likeContains destination r.destination_city &&
        match date with
        | none => true
        | some d => decide (sqlDate r.departure_time = sqlDate d)) :=
      (List.mem_insertionSort depTimeLe).mp hrow
    have hpred := (List.mem_filter.mp hmem).2
    simp only [Bool.and_eq_true] at hpred
    rw [← hrowe]
    exact ⟨hpred.1.1, hpred.1.2⟩
  · simp only [getTripsByRoute]
    refine List.pairwise_map.mpr ?_
    have hs := List.sorted_insertionSort depTimeLe
      (w.repo.trips.filter (fun r =>
        likeContains origin r.origin_city &&
        likeContains destination r.destination_city &&
        match date with
        | none => true
        | some d => decide (sqlDate r.departure_time = sqlDate d)))
    exact List.Pairwise.imp (fun hh => hh) hs

/-- Offline world over the sample repository. -/
def offlineWorld : World :=
  { state := { status := .offline, lastSyncTime := none, pendingActions := 0, error := none },
    isOnline := false, authToken := none, queue := emptyQueue,
    repo := sampleRepo, lastSyncMeta := none }

/-- Witness for C8: a concrete offline search served from the cache. -/
theorem searchTrips_offline_cache_witness :
    searchTrips offlineEnv "pra" "brn" none offlineWorld =
      (getTripsByRoute "pra" "brn" none offlineWorld.repo, offlineWorld, []) ∧
    List.Pairwise (fun t1 t2 : Trip => t1.departureTime.data ≤ t2.departureTime.data)
      (getTripsByRoute "pra" "brn" none offlineWorld.repo) :=
  ⟨(searchTrips_offline_cache offlineEnv offlineWorld "pra" "brn" none rfl).1,
   (searchTrips_offline_cache offlineEnv offlineWorld "pra" "brn" none rfl).2.2⟩

/-- Lemma: `updateTicketStatus` rewrites the looked-up row in place: same row with
the new status and `synced_at` stamped. -/
theorem ticketRowById_updateTicketStatus_hit (st : String) (now : Nat)
    {tid : Nat} (repo : Repo) {row : CachedTicket}
    (hf : ticketRowById tid repo = some row) :
    ticketRowById tid (updateTicketStatus tid st now repo) =
      some { row with status := st, synced_at := now } := by
  have hid : row.id = tid := by simpa using List.find?_some hf
  simp only [ticketRowById, updateTicketStatus] at hf ⊢
  rw [List.find?_map]
  have hcomp : ((fun r : CachedTicket => decide (r.id = tid)) ∘
      (fun r : CachedTicket => if r.id = tid then { r with status := st, synced_at := now } else r)) =
      (fun r : CachedTicket => decide (r.id = tid)) := by
    funext r
    by_cases hr : r.id = tid <;> simp [Function.comp, hr]
  rw [hcomp, hf]
  simp [hid]

/-- C7: queueing a cancellation (respectively a check-in) overwrites the
cached ticket status to `cancelled` (`checked_in`) via
`updateTicketStatus` at enqueue time — the operation takes no remote
environment at all, so no network attempt happens before it returns — and
when the operation returns, the action row is queued and reading the
ticket from the cache already shows the new status. -/
theorem optimistic_status_at_enqueue (w : World) (tid : Nat)
    (reason : Option String) (now : Nat) (row : CachedTicket)
    (trow : CachedTrip)
    (h1 : ticketRowById tid w.repo = some row)
    (h2 : tripRowById row.trip_id w.repo = some trow) :
    ((getTicket tid (queueCancelTicket tid reason now w).2.repo).map (fun t => t.status)) = some "cancelled" ∧
    (queueCancelTicket tid reason now w).2.queue.rows =
      w.queue.rows ++ [{ id := w.queue.nextId, action_type := .CANCEL_TICKET, entity_type := .ticket, entity_id := some tid, payload := (match reason with | some rs => [("reason", rs)] | none => []), created_at := now, retry_count := 0, last_error := none }] ∧
    ((getTicket tid (queueCheckIn tid now w).2.repo).map (fun t => t.status)) = some "checked_in" ∧
    (queueCheckIn tid now w).2.queue.rows =
      w.queue.rows ++ [{ id := w.queue.nextId, action_type := .CHECK_IN, entity_type := .ticket, entity_id := some tid, payload := [], created_at := now, retry_count := 0, last_error := none }] := by
  have hcan := ticketRowById_updateTicketStatus_hit "cancelled" now w.repo h1
  have hchk := ticketRowById_updateTicketStatus_hit "checked_in" now w.repo h1
  have htripc : getTrip row.trip_id (updateTicketStatus tid "cancelled" now w.repo) =
      some (mapCachedTripToTrip trow) := by
    show (tripRowById row.trip_id w.repo).map mapCachedTripToTrip = _
    rw [h2]
    rfl
  have htripk : getTrip row.trip_id (updateTicketStatus tid "checked_in" now w.repo) =
      some (mapCachedTripToTrip trow) := by
    show (tripRowById row.trip_id w.repo).map mapCachedTripToTrip = _
    rw [h2]
    rfl
  refine ⟨?_, rfl, ?_, rfl⟩
  · have hrepo : (queueCancelTicket tid reason now w).2.repo =
        updateTicketStatus tid "cancelled" now w.repo := rfl
    rw [hrepo]
    simp [getTicket, hcan, htripc, mapCachedTicketToTicket]
  · have hrepo : (queueCheckIn tid now w).2.repo =
        updateTicketStatus tid "checked_in" now w.repo := rfl
    rw [hrepo]
    simp [getTicket, hchk, htripk, mapCachedTicketToTicket]

/-- Cached ticket row whose trip (id 3) is present in the sample
repository. -/
def linkedTicketRow : CachedTicket :=
  { orphanTicketRow with id := 8, ticket_number := "TK-8", trip_id := 3 }

/-- Repository where the ticket's trip reference resolves. -/
def linkedRepo : Repo := ⟨[sampleTripRow], [linkedTicketRow]⟩

/-- Sample world over `linkedRepo`. -/
def linkedWorld : World := { sampleWorld with repo := linkedRepo }

/-- Witness for C7: queueing cancel/check-in for the concrete cached
ticket 8. -/
theorem optimistic_status_at_enqueue_witness :
    ((getTicket 8 (queueCancelTicket 8 (some "late") 300 linkedWorld).2.repo).map (fun t => t.status)) = some "cancelled" ∧
    (queueCancelTicket 8 (some "late") 300 linkedWorld).2.queue.rows =
      linkedWorld.queue.rows ++ [{ id := linkedWorld.queue.nextId, action_type := .CANCEL_TICKET, entity_type := .ticket, entity_id := some 8, payload := (match some "late" with | some rs => [("reason", rs)] | none => []), created_at := 300, retry_count := 0, last_error := none }] ∧
    ((getTicket 8 (queueCheckIn 8 300 linkedWorld).2.repo).map (fun t => t.status)) = some "checked_in" ∧
    (queueCheckIn 8 300 linkedWorld).2.queue.rows =
      linkedWorld.queue.rows ++ [{ id := linkedWorld.queue.nextId, action_type := .CHECK_IN, entity_type := .ticket, entity_id := some 8, payload := [], created_at := 300, retry_count := 0, last_error := none }] :=
  optimistic_status_at_enqueue linkedWorld 8 (some "late") 300
    linkedTicketRow sampleTripRow (by decide) (by decide)

/-! ### Listener snapshot identity (`SyncService` state-object aliasing)

`notifyListeners()` passes `this.state` itself to every listener, not a
copy, while `getState()` returns a spread copy. `updateState` replaces
`this.state` with a freshly spread object, but `initialize` (lines 69/72),
`queueAction` (line 447) and `processOfflineQueue` (line 302) assign
`this.state.pendingActions = ...` on the current object in place. To
settle what a listener's saved reference later contains, object identity
is modelled explicitly: a heap of `SyncState` objects, the index of the
service's current object, and the references delivered to listeners
together with the value observed at delivery time. -/

/-- A partial state update as passed to `updateState` (absent fields keep
their value). -/
structure StatePatch where
  status : Option SyncStatus := none
  lastSyncTime : Option (Option Nat) := none
  pendingActions : Option Nat := none
  error : Option (Option String) := none
  deriving DecidableEq, Repr

/-- The spread `{ ...this.state, ...partial }`. -/
def applyPatch (p : StatePatch) (s : SyncState) : SyncState :=
  { status := p.status.getD s.status,
    lastSyncTime := p.lastSyncTime.getD s.lastSyncTime,
    pendingActions := p.pendingActions.getD s.pendingActions,
    error := p.error.getD s.error }

/-- The state-object operations the service performs, by source site:
`updateState` (fresh object plus notify), the in-place
`this.state.pendingActions = n` without notify (`initialize`,
`processOfflineQueue`), the same assignment followed by a notify
(`queueAction`), and a bare `notifyListeners()`. -/
inductive SvcOp
  | updateState (p : StatePatch)
  | assignPending (n : Nat)
  | assignPendingNotify (n : Nat)
  | notify
  deriving DecidableEq, Repr

/-- Heap of state objects, the index of the service's current object, and
the references delivered to listener callbacks (with the value the object
held at delivery time). -/
structure ObjModel where
  heap : List SyncState
  cur : Nat
  delivered : List (Nat × SyncState)
  deriving DecidableEq, Repr

/-- Embeds `notifyListeners()`: every listener receives the reference
`this.state` itself — not a copy. -/
def notifyStep (m : ObjModel) : ObjModel :=
  match m.heap.get? m.cur with
  | some v => { m with delivered := m.delivered ++ [(m.cur, v)] }
  | none => m

/-- One state-object operation (see `SvcOp`). `updateState p` allocates
`{ ...this.state, ...p }` as a new object, repoints `this.state` to it and
notifies; the assignments mutate the current object in place. -/
def stepOp (m : ObjModel) : SvcOp → ObjModel
  | .updateState p =>
    match m.heap.get? m.cur with
    | none => m
    | some v =>
      notifyStep { m with heap := m.heap ++ [applyPatch p v], cur := m.heap.length }
  | .assignPending n =>
    match m.heap.get? m.cur with
    | none => m
    | some v => { m with heap := m.heap.set m.cur { v with pendingActions := n } }
  | .assignPendingNotify n =>
    match m.heap.get? m.cur with
    | none => m
    | some v =>
      notifyStep { m with heap := m.heap.set m.cur { v with pendingActions := n } }
  | .notify => notifyStep m

/-- The constructor's initial heap: one object
`{status: 'idle', lastSyncTime: null, pendingActions: 0, error: null}`. -/
def initialObjModel : ObjModel :=
  ⟨[{ status := .idle, lastSyncTime := none, pendingActions := 0, error := none }], 0, []⟩

/-- Run a sequence of state-object operations from process start. -/
def runOps (ops : List SvcOp) : ObjModel := ops.foldl stepOp initialObjModel

/-- Counterexample to C9 as stated: after `updateState({status:'syncing'})`
delivers the new state object to listeners, the in-place
`this.state.pendingActions = 5` (as in `processOfflineQueue`/`queueAction`)
mutates that already-delivered object, so two reads of the delivered
snapshot at different times disagree — listeners hold a mutable reference,
not an immutable snapshot. -/
theorem snapshot_immutable_counterexample :
    ((1, { status := SyncStatus.syncing, lastSyncTime := none, pendingActions := 0, error := none }) ∈
      (runOps [SvcOp.updateState { status := some .syncing }, SvcOp.assignPending 5]).delivered) ∧
    (runOps [SvcOp.updateState { status := some .syncing }, SvcOp.assignPending 5]).heap.get? 1 ≠
      some { status := SyncStatus.syncing, lastSyncTime := none, pendingActions := 0, error := none } := by
  decide

/-- Whether an operation mutates an existing heap object in place. -/
def SvcOp.isInPlace : SvcOp → Bool
  | .assignPending _ => true
  | .assignPendingNotify _ => true
  | .updateState _ => false
  | .notify => false

/-- Every delivered reference still holds the delivered value. -/
def goodModel (m : ObjModel) : Prop :=
  ∀ rv ∈ m.delivered, m.heap.get? rv.1 = some rv.2

/-- Notifying preserves `goodModel`: the newly delivered pair records the
object's current content. -/
theorem goodModel_notifyStep {m : ObjModel} (h : goodModel m) :
    goodModel (notifyStep m) := by
  unfold notifyStep
  cases hg : m.heap.get? m.cur with
  | none => exact h
  | some v =>
    intro rv hrv
    simp only [List.mem_append, List.mem_singleton] at hrv
    rcases hrv with hrv | rfl
    · exact h rv hrv
    · exact hg

/-- A non-in-place operation preserves `goodModel`: `updateState` only
appends a fresh object, leaving every existing heap cell unchanged. -/
theorem goodModel_stepOp {m : ObjModel} {op : SvcOp}
    (h : goodModel m) (hop : op.isInPlace = false) :
    goodModel (stepOp m op) := by
  cases op with
  | updateState p =>
    unfold stepOp
    cases hg : m.heap.get? m.cur with
    | none => exact h
    | some v =>
      apply goodModel_notifyStep
      intro rv hrv
      have hold := h rv hrv
      obtain ⟨hlt, -⟩ := List.get?_eq_some.mp hold
      show (m.heap ++ [applyPatch p v]).get? rv.1 = some rv.2
      rw [List.get?_append hlt]
      exact hold
  | assignPending n => simp [SvcOp.isInPlace] at hop
  | assignPendingNotify n => simp [SvcOp.isInPlace] at hop
  | notify => exact goodModel_notifyStep h

/-- Lemma: `goodModel` is preserved along any run of non-in-place operations. -/
theorem goodModel_foldl (ops : List SvcOp) :
    ∀ m, goodModel m → (∀ op ∈ ops, op.isInPlace = false) →
      goodModel (ops.foldl stepOp m) := by
  induction ops with
  | nil => intro m hm _; exact hm
  | cons op rest ih =>
    intro m hm hops
    exact ih _ (goodModel_stepOp hm (hops op (List.mem_cons_self _ _)))
      (fun o ho => hops o (List.mem_cons_of_mem _ ho))

/-- C9 (amended): listener callbacks receive the live state object, not a
copy; as long as every state change goes through `updateState` — which
replaces `this.state` with a freshly allocated object — a snapshot
delivered to a listener is never altered by later updates; the in-place
`pendingActions` assignments in `initialize`, `queueAction` and
`processOfflineQueue` are exactly the operations that violate this (see
the counterexample); `getState()` does return a defensive copy. -/
theorem snapshot_immutable_of_no_inplace (ops : List SvcOp)
    (h : ∀ op ∈ ops, op.isInPlace = false) (rv : Nat × SyncState)
    (hrv : rv ∈ (runOps ops).delivered) :
    (runOps ops).heap.get? rv.1 = some rv.2 :=
  goodModel_foldl ops initialObjModel (fun rv hrv => by cases hrv) h rv hrv

/-- Witness for the amended C9 on a concrete updateState-then-notify run. -/
theorem snapshot_immutable_of_no_inplace_witness :
    (runOps [SvcOp.updateState { status := some .syncing }, SvcOp.notify]).heap.get? 1 =
      some { status := SyncStatus.syncing, lastSyncTime := none, pendingActions := 0, error := none } :=
  snapshot_immutable_of_no_inplace
    [SvcOp.updateState { status := some .syncing }, SvcOp.notify] (by decide)
    (1, { status := SyncStatus.syncing, lastSyncTime := none, pendingActions := 0, error := none })
    (by decide)

end BusTickets
